import Mathlib

/-!
# Shallow embedding of the crud-backend-proto authentication core

This file models the authentication/session lifecycle of the backend:
`AuthService.registerUser`, `loginUser`, `storeRefreshToken`,
`refreshAccessToken`, `logoutUser`, `logAuthEvent` (services/authService.js),
the JWT helpers (utils/jwt.js), the password helpers (utils/security.js)
and the `UserController.changePassword` / `deleteAccount` handlers
(controllers/userController.js), over a relational store matching the
SQL schema (users, refresh_tokens, auth_logs).

Modelling conventions:
* Time is an abstract `Nat` tick supplied per request (the code calls
  `new Date()`); durations are added to it.
* bcrypt hashing is modelled as a deterministic injective tag: `verify`
  succeeds exactly on the hashed plaintext.
* A signed JWT is modelled as its payload together with the key that
  signed it; `jwt.verify` checks the key, issuer, audience and expiry,
  `jwt.decode` returns the payload unchecked.  sha256 of the token string
  is modelled as an injective `Digest` wrapper.
* supabase `.single()` yields a row exactly when the filtered result has
  exactly one row (PostgREST object mode errors on 0 or ≥2 rows, leaving
  `data` null); `.update().eq(...)` applies the column assignments to every
  matching row; `.insert` into `users` enforces the UNIQUE constraints on
  username and email.
* uuidv4 freshness is modelled by a counter `nextTokenId` in the store.
-/

namespace CrudAuth

/-- Which signing secret a token was produced with (JWT_SECRET vs
JWT_REFRESH_SECRET in utils/jwt.js). -/
inductive SecretId where
  | access
  | refresh
deriving DecidableEq, Repr

/-- The `type` discriminant embedded in the JWT payload. -/
inductive TokenType where
  | access
  | refresh
deriving DecidableEq, Repr

/-- A signed JWT, modelled as its payload plus the signing key.
`generateAccessToken` embeds userId/username/email/type; `generateRefreshToken`
embeds userId/username/tokenId/type.  `iss`/`aud` are the registered claims
set by `jwt.sign`, `exp` the expiry timestamp. -/
structure TokenStr where
  userId : Nat
  username : String
  email : Option String
  tokenId : Option Nat
  typ : TokenType
  exp : Nat
  iss : String
  aud : String
  secret : SecretId
deriving DecidableEq, Repr

/-- sha256 hex digest of a token string, modelled injectively. -/
structure Digest where
  val : TokenStr
deriving DecidableEq, Repr

/-- `crypto.createHash('sha256').update(refreshToken).digest('hex')`. -/
def sha256 (t : TokenStr) : Digest := ⟨t⟩

/-- bcrypt hash output, modelled as a deterministic tag of the plaintext
(utils/security.js `hashPassword`). -/
def hashPassword (password : String) : String := "bcrypt$" ++ password

/-- utils/security.js `comparePassword`: true iff the plaintext hashes to
the stored hash. -/
def comparePassword (password hash : String) : Bool := hash == hashPassword password

/-- A row of the `users` table (schema.sql), restricted to the columns the
auth core reads or writes. -/
structure User where
  id : Nat
  username : String
  email : String
  passwordHash : String
  firstName : Option String
  lastName : Option String
  phone : Option String
  isActive : Bool
  failedLoginAttempts : Nat
  lockedUntil : Option Nat
  lastLogin : Option Nat
deriving DecidableEq, Repr

/-- A row of the `refresh_tokens` table. -/
structure RefreshRecord where
  id : Nat
  userId : Nat
  tokenId : Option Nat
  tokenHash : Digest
  expiresAt : Nat
  isRevoked : Bool
deriving DecidableEq, Repr

/-- The `event_type` column of `auth_logs`. -/
inductive EventType where
  | register
  | login
  | failedLogin
  | logout
  | passwordChange
  | accountDeletion
deriving DecidableEq, Repr

/-- A row of the `auth_logs` table.  The JSONB `metadata` blob is modelled
by the fields the code actually stores in it. -/
structure AuthEvent where
  userId : Option Nat
  eventType : EventType
  success : Bool
  ipAddress : Option String := none
  userAgent : Option String := none
  errorMessage : Option String := none
  metaIdentifier : Option String := none
  metaFailedAttempts : Option Nat := none
  metaUsername : Option String := none
  metaEmail : Option String := none
deriving DecidableEq, Repr

/-- The relational store: the three tables plus freshness counters for
generated primary keys and uuidv4 token ids. -/
structure DB where
  users : List User
  refreshTokens : List RefreshRecord
  authLogs : List AuthEvent
  nextUserId : Nat
  nextRecordId : Nat
  nextTokenId : Nat
deriving DecidableEq, Repr

/-- supabase `.single()`: the row when the filter matched exactly one,
otherwise `data` is null. -/
def single {α : Type} (l : List α) : Option α :=
  match l with
  | [x] => some x
  | _ => none

/-- Errors thrown by the auth service / distinct non-2xx controller
outcomes, one constructor per thrown message. -/
inductive AuthErr where
  /-- `User with this {field} already exists` (registerUser). -/
  | userExists (field : String)
  /-- `Failed to create user: ...` — the users-table insert was rejected. -/
  | createUserFailed
  /-- `Invalid credentials` (loginUser: unknown identifier or bad password). -/
  | invalidCredentials
  /-- `Account is temporarily locked due to too many failed attempts`. -/
  | accountLocked
  /-- `Account is deactivated`. -/
  | accountInactive
  /-- `Invalid or expired refresh token` (verifyRefreshToken failure). -/
  | invalidOrExpiredRefreshToken
  /-- `Invalid refresh token` (no live ledger row for the presented token). -/
  | invalidRefreshToken
  /-- `Refresh token expired` (ledger row past its expires_at). -/
  | refreshTokenExpired
  /-- `User not found or inactive` (refresh: owner missing or deactivated). -/
  | userNotFoundOrInactive
deriving DecidableEq, Repr

/-- The spec's error taxonomy (§7) folds every codec failure, unknown or
revoked ledger row, and missing/inactive owner into one client-facing
`InvalidTokenError` kind; `ExpiredTokenError` is the separate ledger-expiry
kind. -/
def isInvalidTokenError : AuthErr → Bool
  | .invalidOrExpiredRefreshToken => true
  | .invalidRefreshToken => true
  | .userNotFoundOrInactive => true
  | _ => false

/-- Configuration surface consumed by the core (env vars with their code
defaults; durations in abstract ticks). -/
structure Config where
  maxLoginAttempts : Nat := 5
  lockoutDuration : Nat := 15
  accessLifetime : Nat := 15
  refreshLifetime : Nat := 7 * 24 * 60
deriving Repr

def jwtIssuer : String := "secure-auth-backend"

def jwtAudience : String := "react-native-app"

/-- utils/jwt.js `generateAccessToken`. -/
def generateAccessToken (cfg : Config) (u : User) (now : Nat) : TokenStr :=
  { userId := u.id, username := u.username, email := some u.email,
    tokenId := none, typ := .access, exp := now + cfg.accessLifetime,
    iss := jwtIssuer, aud := jwtAudience, secret := .access }

/-- utils/jwt.js `generateRefreshToken`; `tid` is the fresh uuidv4. -/
def generateRefreshToken (cfg : Config) (u : User) (now : Nat) (tid : Nat) :
    TokenStr :=
  { userId := u.id, username := u.username, email := none,
    tokenId := some tid, typ := .refresh, exp := now + cfg.refreshLifetime,
    iss := jwtIssuer, aud := jwtAudience, secret := .refresh }

/-- The access/refresh pair returned by `generateTokens`. -/
structure Tokens where
  accessToken : TokenStr
  refreshToken : TokenStr
deriving DecidableEq, Repr

/-- utils/jwt.js `generateTokens`, drawing the uuidv4 from the freshness
counter. -/
def generateTokens (cfg : Config) (db : DB) (u : User) (now : Nat) :
    Tokens × DB :=
  ({ accessToken := generateAccessToken cfg u now,
     refreshToken := generateRefreshToken cfg u now db.nextTokenId },
   { db with nextTokenId := db.nextTokenId + 1 })

/-- utils/jwt.js `verifyRefreshToken`: `jwt.verify` against the refresh
secret, issuer and audience; a token is expired once `now` reaches `exp`.
Returns the payload, or none when verification throws. -/
def verifyRefreshToken (t : TokenStr) (now : Nat) : Option TokenStr :=
  if t.secret = .refresh ∧ t.iss = jwtIssuer ∧ t.aud = jwtAudience ∧ now < t.exp
  then some t else none

/-- `AuthService.logAuthEvent`: append-only insert into `auth_logs`
(insert failures are swallowed, so the model never fails). -/
def logAuthEvent (db : DB) (e : AuthEvent) : DB :=
  { db with authLogs := db.authLogs ++ [e] }

/-- `AuthService.storeRefreshToken`: decode the token, hash it, insert the
ledger row. -/
def storeRefreshToken (db : DB) (userId : Nat) (refreshToken : TokenStr) :
    DB :=
  { db with
    refreshTokens := db.refreshTokens ++
      [{ id := db.nextRecordId, userId := userId,
         tokenId := refreshToken.tokenId, tokenHash := sha256 refreshToken,
         expiresAt := refreshToken.exp, isRevoked := false }],
    nextRecordId := db.nextRecordId + 1 }

/-- `.update(fields).eq(...)` on `users`: apply the assignment to every
matching row. -/
def updateUsers (db : DB) (pred : User → Bool) (f : User → User) : DB :=
  { db with users := db.users.map (fun u => if pred u then f u else u) }

/-- `.update({is_revoked: true}).eq(...)` on `refresh_tokens`. -/
def revokeWhere (db : DB) (pred : RefreshRecord → Bool) : DB :=
  { db with
    refreshTokens := db.refreshTokens.map
      (fun r => if pred r then { r with isRevoked := true } else r) }

/-- `user.locked_until && new Date(user.locked_until) > new Date()`. -/
def isLockedAt (u : User) (now : Nat) : Bool :=
  match u.lockedUntil with
  | some t => now < t
  | none => false

/-- The rows matched by `.or(username.eq.X,email.eq.X)` on `users`. -/
def usersMatching (db : DB) (identifier : String) : List User :=
  db.users.filter (fun u => u.username == identifier || u.email == identifier)

/-- The user row matched by `.or(username.eq.X,email.eq.X).single()`. -/
def findByIdentifier (db : DB) (identifier : String) : Option User :=
  single (usersMatching db identifier)

/-- `registerUser`'s input. -/
structure RegisterData where
  username : String
  email : String
  password : String
  firstName : Option String := none
  lastName : Option String := none
  phone : Option String := none
deriving Repr

/-- `registerUser` / `loginUser` / `refreshAccessToken` success payload. -/
structure AuthOk where
  user : User
  tokens : Tokens
deriving DecidableEq, Repr

/-- `AuthService.registerUser`. -/
def registerUser (cfg : Config) (db : DB) (now : Nat) (rd : RegisterData) :
    Except AuthErr AuthOk × DB :=
  match single (db.users.filter
      (fun u => u.username == rd.username || u.email == rd.email)) with
  | some existingUser =>
      (.error (.userExists
        (if existingUser.username == rd.username then "username" else "email")),
       db)
  | none =>
      let passwordHash := hashPassword rd.password
      -- users-table UNIQUE(username), UNIQUE(email) constraints
      if db.users.any
          (fun u => u.username == rd.username || u.email == rd.email) then
        (.error .createUserFailed, db)
      else
        let newUser : User :=
          { id := db.nextUserId, username := rd.username, email := rd.email,
            passwordHash := passwordHash, firstName := rd.firstName,
            lastName := rd.lastName, phone := rd.phone, isActive := true,
            failedLoginAttempts := 0, lockedUntil := none, lastLogin := none }
        let db := { db with
                    users := db.users ++ [newUser],
                    nextUserId := db.nextUserId + 1 }
        let db := logAuthEvent db
          { userId := some newUser.id, eventType := .register, success := true,
            metaUsername := some rd.username, metaEmail := some rd.email }
        let (tokens, db) := generateTokens cfg db newUser now
        let db := storeRefreshToken db newUser.id tokens.refreshToken
        (.ok { user := newUser, tokens := tokens }, db)

/-- `AuthService.loginUser`. -/
def loginUser (cfg : Config) (db : DB) (now : Nat)
    (identifier password : String)
    (ipAddress userAgent : Option String) : Except AuthErr AuthOk × DB :=
  match findByIdentifier db identifier with
  | none =>
      (.error .invalidCredentials,
       logAuthEvent db
         { userId := none, eventType := .failedLogin, success := false,
           ipAddress := ipAddress, userAgent := userAgent,
           errorMessage := some "User not found",
           metaIdentifier := some identifier })
  | some user =>
      if isLockedAt user now then
        (.error .accountLocked,
         logAuthEvent db
           { userId := some user.id, eventType := .failedLogin,
             success := false, ipAddress := ipAddress, userAgent := userAgent,
             errorMessage := some "Account locked",
             metaIdentifier := some identifier })
      else if !user.isActive then
        (.error .accountInactive,
         logAuthEvent db
           { userId := some user.id, eventType := .failedLogin,
             success := false, ipAddress := ipAddress, userAgent := userAgent,
             errorMessage := some "Account inactive",
             metaIdentifier := some identifier })
      else if !comparePassword password user.passwordHash then
        let failedAttempts := user.failedLoginAttempts + 1
        let db := updateUsers db (fun u => u.id == user.id)
          (fun u =>
            if failedAttempts ≥ cfg.maxLoginAttempts then
              { u with failedLoginAttempts := failedAttempts,
                       lockedUntil := some (now + cfg.lockoutDuration) }
            else
              { u with failedLoginAttempts := failedAttempts })
        let db := logAuthEvent db
          { userId := some user.id, eventType := .failedLogin,
            success := false, ipAddress := ipAddress, userAgent := userAgent,
            errorMessage := some "Invalid password",
            metaIdentifier := some identifier,
            metaFailedAttempts := some failedAttempts }
        (.error .invalidCredentials, db)
      else
        let db := updateUsers db (fun u => u.id == user.id)
          (fun u => { u with failedLoginAttempts := 0, lockedUntil := none,
                             lastLogin := some now })
        let (tokens, db) := generateTokens cfg db user now
        let db := storeRefreshToken db user.id tokens.refreshToken
        let db := logAuthEvent db
          { userId := some user.id, eventType := .login, success := true,
            ipAddress := ipAddress, userAgent := userAgent,
            metaIdentifier := some identifier }
        (.ok { user := user, tokens := tokens }, db)

/-- `AuthService.refreshAccessToken`. -/
def refreshAccessToken (cfg : Config) (db : DB) (now : Nat)
    (refreshToken : TokenStr) : Except AuthErr AuthOk × DB :=
  match verifyRefreshToken refreshToken now with
  | none => (.error .invalidOrExpiredRefreshToken, db)
  | some decoded =>
      let tokenHash := sha256 refreshToken
      match single (db.refreshTokens.filter
          (fun r => r.tokenId == decoded.tokenId
                    && r.tokenHash == tokenHash && !r.isRevoked)) with
      | none => (.error .invalidRefreshToken, db)
      | some storedToken =>
          if storedToken.expiresAt < now then
            (.error .refreshTokenExpired, db)
          else
            match single (db.users.filter (fun u => u.id == decoded.userId)) with
            | none => (.error .userNotFoundOrInactive, db)
            | some user =>
                if !user.isActive then
                  (.error .userNotFoundOrInactive, db)
                else
                  let (tokens, db) := generateTokens cfg db user now
                  let db := revokeWhere db (fun r => r.id == storedToken.id)
                  let db := storeRefreshToken db user.id tokens.refreshToken
                  (.ok { user := user, tokens := tokens }, db)

/-- `AuthService.logoutUser`: best-effort revocation keyed on the decoded
tokenId scoped to the userId, then a success audit event.  A missing or
undecodable presented token is `none`. -/
def logoutUser (db : DB) (userId : Nat) (refreshToken : Option TokenStr) :
    Except AuthErr Unit × DB :=
  let db :=
    match refreshToken with
    | some t =>
        match t.tokenId with
        | some tid =>
            revokeWhere db (fun r => r.tokenId == some tid && r.userId == userId)
        | none => db
    | none => db
  let db := logAuthEvent db
    { userId := some userId, eventType := .logout, success := true }
  (.ok (), db)

/-- An HTTP-level controller outcome: 2xx success, 4xx client error, or
5xx server error, each carrying the response message. -/
inductive CtrlResult where
  | ok (msg : String)
  | clientError (msg : String)
  | serverError (msg : String)
deriving DecidableEq, Repr

/-- `UserController.changePassword` (controllers/userController.js). -/
def changePassword (db : DB) (userId : Nat)
    (currentPassword newPassword : String)
    (ipAddress userAgent : Option String) : CtrlResult × DB :=
  match single (db.users.filter (fun u => u.id == userId)) with
  | none => (.serverError "User not found", db)
  | some user =>
      if !comparePassword currentPassword user.passwordHash then
        let db := logAuthEvent db
          { userId := some userId, eventType := .passwordChange,
            success := false, errorMessage := some "Invalid current password",
            ipAddress := ipAddress, userAgent := userAgent }
        (.clientError "Current password is incorrect", db)
      else
        let newPasswordHash := hashPassword newPassword
        let db := updateUsers db (fun u => u.id == userId)
          (fun u => { u with passwordHash := newPasswordHash })
        let db := revokeWhere db (fun r => r.userId == userId)
        let db := logAuthEvent db
          { userId := some userId, eventType := .passwordChange,
            success := true, ipAddress := ipAddress, userAgent := userAgent }
        (.ok "Password changed successfully. Please log in again with your new password.",
         db)

/-- `DELETE FROM users WHERE id = userId` with the schema's cascades:
refresh_tokens rows cascade-delete, auth_logs rows keep the row with
`user_id` set to null. -/
def deleteUserRow (db : DB) (userId : Nat) : DB :=
  { db with
    users := db.users.filter (fun u => !(u.id == userId)),
    refreshTokens := db.refreshTokens.filter (fun r => !(r.userId == userId)),
    authLogs := db.authLogs.map
      (fun e => if e.userId == some userId then { e with userId := none } else e) }

/-- `UserController.deleteAccount`.  The request password is `none` when
absent (JS falsy also catches the empty string). -/
def deleteAccount (db : DB) (userId : Nat) (password : Option String)
    (ipAddress userAgent : Option String) : CtrlResult × DB :=
  match password with
  | none => (.clientError "Password is required to delete account", db)
  | some pw =>
      if pw == "" then (.clientError "Password is required to delete account", db)
      else
        match single (db.users.filter (fun u => u.id == userId)) with
        | none => (.serverError "User not found", db)
        | some user =>
            if !comparePassword pw user.passwordHash then
              (.clientError "Password is incorrect", db)
            else
              let db := logAuthEvent db
                { userId := some userId, eventType := .accountDeletion,
                  success := true, ipAddress := ipAddress,
                  userAgent := userAgent,
                  metaUsername := some user.username,
                  metaEmail := some user.email }
              let db := deleteUserRow db userId
              (.ok "Account deleted successfully", db)

/-- `n` consecutive wrong-password login attempts (state evolution only). -/
def wrongLogins (cfg : Config) (db : DB) (now : Nat)
    (identifier password : String) : Nat → DB
  | 0 => db
  | k + 1 =>
      wrongLogins cfg (loginUser cfg db now identifier password none none).2
        now identifier password k
/-- Ledger freshness: every stored uuidv4 token id is below the generator
counter (uuidv4 collisions are ruled out by modelling ids as a counter). -/
def tokenIdsFresh (db : DB) : Bool :=
  db.refreshTokens.all (fun r =>
    match r.tokenId with
    | some tid => decide (tid < db.nextTokenId)
    | none => true)
/-- Ledger rows agree with the token they digest: `storeRefreshToken`
always writes `token_id` and `user_id` straight from the token whose
sha256 it stores. -/
def storedConsistent (db : DB) : Bool :=
  db.refreshTokens.all (fun r =>
    r.tokenId == r.tokenHash.val.tokenId && r.userId == r.tokenHash.val.userId)
def isOkResult : Except AuthErr AuthOk → Bool
  | .ok _ => true
  | .error _ => false
/-- The users-table row created by a successful `registerUser`. -/
def mkNewUser (db : DB) (rd : RegisterData) : User :=
  { id := db.nextUserId, username := rd.username, email := rd.email,
    passwordHash := hashPassword rd.password, firstName := rd.firstName,
    lastName := rd.lastName, phone := rd.phone, isActive := true,
    failedLoginAttempts := 0, lockedUntil := none, lastLogin := none }
def defaultCfg : Config := {}
def emptyDB : DB :=
  { users := [], refreshTokens := [], authLogs := [],
    nextUserId := 1, nextRecordId := 1, nextTokenId := 1 }
def aliceReg : RegisterData :=
  { username := "alice", email := "alice@x.com", password := "Str0ng!Pw" }
def aliceDB : DB := (registerUser defaultCfg emptyDB 100 aliceReg).2
def aliceUser : User :=
  { id := 1, username := "alice", email := "alice@x.com",
    passwordHash := "bcrypt$Str0ng!Pw", firstName := none, lastName := none,
    phone := none, isActive := true, failedLoginAttempts := 0,
    lockedUntil := none, lastLogin := none }
def aliceTok : TokenStr :=
  { userId := 1, username := "alice", email := none, tokenId := some 1,
    typ := .refresh, exp := 10180, iss := jwtIssuer, aud := jwtAudience,
    secret := .refresh }
def lockedUser : User :=
  { aliceUser with failedLoginAttempts := 5, lockedUntil := some 500 }
def lockedDB : DB :=
  { users := [lockedUser], refreshTokens := [], authLogs := [],
    nextUserId := 2, nextRecordId := 1, nextTokenId := 1 }
def staleRec : RefreshRecord :=
  { id := 1, userId := 1, tokenId := some 1, tokenHash := sha256 aliceTok,
    expiresAt := 50, isRevoked := false }
def staleDB : DB :=
  { users := [aliceUser], refreshTokens := [staleRec], authLogs := [],
    nextUserId := 2, nextRecordId := 2, nextTokenId := 2 }
def bobUser : User :=
  { id := 2, username := "bob", email := "b@x.com",
    passwordHash := "bcrypt$B0b!pass", firstName := none, lastName := none,
    phone := none, isActive := true, failedLoginAttempts := 0,
    lockedUntil := none, lastLogin := none }
def twoUserDB : DB :=
  { users := [aliceUser, bobUser], refreshTokens := [], authLogs := [],
    nextUserId := 3, nextRecordId := 1, nextTokenId := 1 }

section Lemmas

theorem single_eq_some {α : Type} {l : List α} {x : α} :
    single l = some x ↔ l = [x] := by
  cases l with
  | nil => simp [single]
  | cons a t =>
      cases t with
      | nil => simp [single]
      | cons b t' => simp [single]
theorem single_eq_none_of_no_match {α : Type} {l : List α} {p : α → Bool}
    (h : ∀ a ∈ l, ¬p a = true) : single (l.filter p) = none := by
  rw [List.filter_eq_nil_iff.mpr h]
  rfl
/-- Filtering after a pointwise update whose function preserves the
predicate is the same as updating the filtered rows. -/
theorem filter_map_of_pred_preserved {α : Type} (l : List α) (p : α → Bool)
    (g : α → α) (hpres : ∀ a, p (g a) = p a) :
    (l.map g).filter p = (l.filter p).map g := by
  rw [List.filter_map]
  congr 1
  exact List.filter_congr (fun a _ => by simp [Function.comp, hpres])
/-- Membership in a singleton filter result pins the matching element. -/
theorem eq_of_filter_eq_singleton {α : Type} {l : List α} {p : α → Bool}
    {x : α} (h : l.filter p = [x]) {m : α} (hm : m ∈ l) (hpm : p m = true) :
    m = x := by
  have : m ∈ l.filter p := List.mem_filter.mpr ⟨hm, hpm⟩
  rw [h] at this
  simpa using this
theorem mem_of_filter_eq_singleton {α : Type} {l : List α} {p : α → Bool}
    {x : α} (h : l.filter p = [x]) : x ∈ l ∧ p x = true := by
  have : x ∈ l.filter p := by rw [h]; simp
  exact List.mem_filter.mp this
/-- `usersMatching` after a `updateUsers` whose function keeps username and
email intact. -/
theorem usersMatching_updateUsers (db : DB) (identifier : String)
    (pred : User → Bool) (f : User → User)
    (hname : ∀ v, (f v).username = v.username)
    (hmail : ∀ v, (f v).email = v.email) :
    usersMatching (updateUsers db pred f) identifier
      = (usersMatching db identifier).map (fun v => if pred v then f v else v) := by
  unfold usersMatching updateUsers
  exact filter_map_of_pred_preserved _ _ _
    (fun a => by by_cases h : pred a = true <;> simp [h, hname, hmail])
theorem usersMatching_logAuthEvent (db : DB) (identifier : String)
    (e : AuthEvent) :
    usersMatching (logAuthEvent db e) identifier = usersMatching db identifier := rfl
theorem usersMatching_storeRefreshToken (db : DB) (identifier : String)
    (uid : Nat) (t : TokenStr) :
    usersMatching (storeRefreshToken db uid t) identifier
      = usersMatching db identifier := rfl
theorem findByIdentifier_eq_some {db : DB} {identifier : String} {u : User}
    (hu : usersMatching db identifier = [u]) :
    findByIdentifier db identifier = some u := by
  rw [findByIdentifier, hu]; rfl
theorem loginUser_unknown (cfg : Config) (db : DB) (now : Nat)
    (identifier pw : String) (ip ua : Option String)
    (hu : usersMatching db identifier = []) :
    loginUser cfg db now identifier pw ip ua =
      (.error .invalidCredentials,
       logAuthEvent db
         { userId := none, eventType := .failedLogin, success := false,
           ipAddress := ip, userAgent := ua,
           errorMessage := some "User not found",
           metaIdentifier := some identifier }) := by
  unfold loginUser
  rw [show findByIdentifier db identifier = none by rw [findByIdentifier, hu]; rfl]
theorem loginUser_locked (cfg : Config) (db : DB) (now : Nat)
    (identifier pw : String) (ip ua : Option String) {u : User}
    (hu : usersMatching db identifier = [u])
    (hl : isLockedAt u now = true) :
    loginUser cfg db now identifier pw ip ua =
      (.error .accountLocked,
       logAuthEvent db
         { userId := some u.id, eventType := .failedLogin, success := false,
           ipAddress := ip, userAgent := ua,
           errorMessage := some "Account locked",
           metaIdentifier := some identifier }) := by
  unfold loginUser
  rw [findByIdentifier_eq_some hu]
  simp [hl]
theorem loginUser_wrong_eq (cfg : Config) (db : DB) (now : Nat)
    (identifier pw : String) (ip ua : Option String) {u : User}
    (hu : usersMatching db identifier = [u])
    (hnl : isLockedAt u now = false)
    (hact : u.isActive = true)
    (hwrong : comparePassword pw u.passwordHash = false) :
    loginUser cfg db now identifier pw ip ua =
      (.error .invalidCredentials,
       logAuthEvent
         (updateUsers db (fun v => v.id == u.id)
           (fun v =>
             if u.failedLoginAttempts + 1 ≥ cfg.maxLoginAttempts then
               { v with failedLoginAttempts := u.failedLoginAttempts + 1,
                        lockedUntil := some (now + cfg.lockoutDuration) }
             else { v with failedLoginAttempts := u.failedLoginAttempts + 1 }))
         { userId := some u.id, eventType := .failedLogin, success := false,
           ipAddress := ip, userAgent := ua,
           errorMessage := some "Invalid password",
           metaIdentifier := some identifier,
           metaFailedAttempts := some (u.failedLoginAttempts + 1) }) := by
  unfold loginUser
  rw [findByIdentifier_eq_some hu]
  simp [hnl, hact, hwrong]
theorem loginUser_wrong (cfg : Config) (db : DB) (now : Nat)
    (identifier pw : String) (ip ua : Option String) {u : User}
    (hu : usersMatching db identifier = [u])
    (hnl : isLockedAt u now = false)
    (hact : u.isActive = true)
    (hwrong : comparePassword pw u.passwordHash = false) :
    (loginUser cfg db now identifier pw ip ua).1 = .error .invalidCredentials
    ∧ usersMatching (loginUser cfg db now identifier pw ip ua).2 identifier
        = [if u.failedLoginAttempts + 1 ≥ cfg.maxLoginAttempts then
             { u with failedLoginAttempts := u.failedLoginAttempts + 1,
                      lockedUntil := some (now + cfg.lockoutDuration) }
           else { u with failedLoginAttempts := u.failedLoginAttempts + 1 }]
    ∧ (loginUser cfg db now identifier pw ip ua).2.authLogs
        = db.authLogs ++
          [{ userId := some u.id, eventType := .failedLogin, success := false,
             ipAddress := ip, userAgent := ua,
             errorMessage := some "Invalid password",
             metaIdentifier := some identifier,
             metaFailedAttempts := some (u.failedLoginAttempts + 1) }] := by
  rw [loginUser_wrong_eq cfg db now identifier pw ip ua hu hnl hact hwrong]
  refine ⟨rfl, ?_, rfl⟩
  rw [usersMatching_logAuthEvent, usersMatching_updateUsers _ _ _ _
    (fun v => by split <;> rfl) (fun v => by split <;> rfl), hu]
  have hid : (u.id == u.id) = true := by simp
  simp only [List.map, hid, if_true]
theorem loginUser_success_eq (cfg : Config) (db : DB) (now : Nat)
    (identifier pw : String) (ip ua : Option String) {u : User}
    (hu : usersMatching db identifier = [u])
    (hnl : isLockedAt u now = false)
    (hact : u.isActive = true)
    (hok : comparePassword pw u.passwordHash = true) :
    loginUser cfg db now identifier pw ip ua =
      (.ok { user := u,
             tokens := { accessToken := generateAccessToken cfg u now,
                         refreshToken := generateRefreshToken cfg u now db.nextTokenId } },
       logAuthEvent
         (storeRefreshToken
           ({ updateUsers db (fun v => v.id == u.id)
                (fun v => { v with failedLoginAttempts := 0, lockedUntil := none,
                                   lastLogin := some now }) with
              nextTokenId := db.nextTokenId + 1 })
           u.id (generateRefreshToken cfg u now db.nextTokenId))
         { userId := some u.id, eventType := .login, success := true,
           ipAddress := ip, userAgent := ua,
           metaIdentifier := some identifier }) := by
  unfold loginUser
  rw [findByIdentifier_eq_some hu]
  simp [hnl, hact, hok, generateTokens, updateUsers]
theorem loginUser_success (cfg : Config) (db : DB) (now : Nat)
    (identifier pw : String) (ip ua : Option String) {u : User}
    (hu : usersMatching db identifier = [u])
    (hnl : isLockedAt u now = false)
    (hact : u.isActive = true)
    (hok : comparePassword pw u.passwordHash = true) :
    (loginUser cfg db now identifier pw ip ua).1 =
      .ok { user := u,
            tokens := { accessToken := generateAccessToken cfg u now,
                        refreshToken := generateRefreshToken cfg u now db.nextTokenId } }
    ∧ usersMatching (loginUser cfg db now identifier pw ip ua).2 identifier
        = [{ u with failedLoginAttempts := 0, lockedUntil := none,
                    lastLogin := some now }] := by
  rw [loginUser_success_eq cfg db now identifier pw ip ua hu hnl hact hok]
  refine ⟨rfl, ?_⟩
  rw [usersMatching_logAuthEvent]
  have h2 : usersMatching
      (storeRefreshToken
        ({ updateUsers db (fun v => v.id == u.id)
             (fun v => { v with failedLoginAttempts := 0, lockedUntil := none,
                                lastLogin := some now }) with
           nextTokenId := db.nextTokenId + 1 })
        u.id (generateRefreshToken cfg u now db.nextTokenId)) identifier
      = usersMatching (updateUsers db (fun v => v.id == u.id)
          (fun v => { v with failedLoginAttempts := 0, lockedUntil := none,
                             lastLogin := some now })) identifier := rfl
  rw [h2, usersMatching_updateUsers db identifier (fun v => v.id == u.id)
    (fun v => { v with failedLoginAttempts := 0, lockedUntil := none,
                       lastLogin := some now }) (fun v => rfl) (fun v => rfl), hu]
  have hid : (u.id == u.id) = true := by simp
  simp only [List.map, hid, if_true]
/-- `k` wrong-password logins, while under the threshold, only step the
failure counter. -/
theorem wrongLogins_filter (cfg : Config) (now : Nat)
    (identifier pw : String) (k : Nat) :
    ∀ (db : DB) (u : User),
    usersMatching db identifier = [u] →
    u.isActive = true →
    u.lockedUntil = none →
    comparePassword pw u.passwordHash = false →
    u.failedLoginAttempts + k < cfg.maxLoginAttempts →
    usersMatching (wrongLogins cfg db now identifier pw k) identifier
      = [{ u with failedLoginAttempts := u.failedLoginAttempts + k }] := by
  induction k with
  | zero =>
      intro db u hu hact hlock hwrong hk
      simpa [wrongLogins] using hu
  | succ k ih =>
      intro db u hu hact hlock hwrong hk
      have hnl : isLockedAt u now = false := by simp [isLockedAt, hlock]
      have hstep := loginUser_wrong cfg db now identifier pw none none hu hnl hact hwrong
      have hcond : ¬(u.failedLoginAttempts + 1 ≥ cfg.maxLoginAttempts) := by omega
      rw [if_neg hcond] at hstep
      have hres := ih (loginUser cfg db now identifier pw none none).2
        { u with failedLoginAttempts := u.failedLoginAttempts + 1 }
        hstep.2.1 hact hlock hwrong (by simp; omega)
      rw [show wrongLogins cfg db now identifier pw (k+1)
        = wrongLogins cfg (loginUser cfg db now identifier pw none none).2 now identifier pw k
        from rfl, hres]
      simp [Nat.add_assoc, Nat.add_comm 1 k]

-- Concrete sample data for witnesses
theorem verifyRefreshToken_some_inv {t d : TokenStr} {now : Nat}
    (h : verifyRefreshToken t now = some d) : d = t := by
  unfold verifyRefreshToken at h
  split at h
  · exact (Option.some.injEq _ _ ▸ h).symm
  · exact absurd h (by simp)
/-- Whenever no live ledger row matches the presented token, refresh fails
with one of the invalid-token errors. -/
theorem refreshAccessToken_no_live_record (cfg : Config) (db : DB) (now : Nat)
    (tok : TokenStr)
    (h : ∀ m ∈ db.refreshTokens,
      (m.tokenId == tok.tokenId && m.tokenHash == sha256 tok && !m.isRevoked) = false) :
    ∃ e, (refreshAccessToken cfg db now tok).1 = .error e
      ∧ isInvalidTokenError e = true := by
  cases hv : verifyRefreshToken tok now with
  | none =>
      refine ⟨.invalidOrExpiredRefreshToken, ?_, rfl⟩
      unfold refreshAccessToken
      rw [hv]
  | some d =>
      have hd : d = tok := verifyRefreshToken_some_inv hv
      subst hd
      refine ⟨.invalidRefreshToken, ?_, rfl⟩
      have hnone : single (db.refreshTokens.filter (fun r =>
          r.tokenId == d.tokenId && r.tokenHash == sha256 d && !r.isRevoked)) = none :=
        single_eq_none_of_no_match (fun a ha => by simp [h a ha])
      unfold refreshAccessToken
      rw [hv]
      simp only [hnone]
/-- Inversion of a successful refresh: the codec accepted the token, a
unique live ledger row matched it, and the resulting ledger is the old one
with that row revoked plus the freshly stored rotated record. -/
theorem refreshAccessToken_ok_shape (cfg : Config) (db : DB) (now : Nat)
    (tok : TokenStr)
    (hok : isOkResult (refreshAccessToken cfg db now tok).1 = true) :
    verifyRefreshToken tok now = some tok
    ∧ ∃ r, (db.refreshTokens.filter (fun x =>
        x.tokenId == tok.tokenId && x.tokenHash == sha256 tok && !x.isRevoked)
          = [r])
      ∧ ∃ u, (refreshAccessToken cfg db now tok).2.refreshTokens
          = db.refreshTokens.map
              (fun x => if x.id == r.id then { x with isRevoked := true } else x)
            ++ [{ id := db.nextRecordId, userId := u.id,
                  tokenId := some db.nextTokenId,
                  tokenHash := sha256 (generateRefreshToken cfg u now db.nextTokenId),
                  expiresAt := now + cfg.refreshLifetime, isRevoked := false }] := by
  cases hv : verifyRefreshToken tok now with
  | none =>
      exfalso
      unfold refreshAccessToken at hok
      rw [hv] at hok
      simp [isOkResult] at hok
  | some d =>
      have hd : d = tok := verifyRefreshToken_some_inv hv
      subst hd
      refine ⟨rfl, ?_⟩
      unfold refreshAccessToken at hok ⊢
      rw [hv] at hok ⊢
      cases hq : single (db.refreshTokens.filter (fun x =>
          x.tokenId == d.tokenId && x.tokenHash == sha256 d && !x.isRevoked)) with
      | none =>
          exfalso
          simp only [hq] at hok
          simp [isOkResult] at hok
      | some r =>
          simp only [hq] at hok ⊢
          refine ⟨r, single_eq_some.mp hq, ?_⟩
          by_cases hexp : r.expiresAt < now
          · exfalso
            simp only [if_pos hexp] at hok
            simp [isOkResult] at hok
          · simp only [if_neg hexp] at hok ⊢
            cases hu : single (db.users.filter (fun v => v.id == d.userId)) with
            | none =>
                exfalso
                simp only [hu] at hok
                simp [isOkResult] at hok
            | some u =>
                simp only [hu] at hok ⊢
                by_cases hact : u.isActive
                · refine ⟨u, ?_⟩
                  simp [hact, generateTokens, storeRefreshToken, revokeWhere,
                    generateRefreshToken]
                · exfalso
                  simp only [hact] at hok
                  simp [isOkResult] at hok
theorem changePassword_ok_shape (db : DB) (uid : Nat) (cur new : String)
    (ip ua : Option String) (u : User)
    (hu : db.users.filter (fun v => v.id == uid) = [u])
    (hok : comparePassword cur u.passwordHash = true) :
    (changePassword db uid cur new ip ua).1
      = .ok "Password changed successfully. Please log in again with your new password."
    ∧ (changePassword db uid cur new ip ua).2.refreshTokens
      = db.refreshTokens.map
          (fun r => if r.userId == uid then { r with isRevoked := true } else r)
    ∧ (changePassword db uid cur new ip ua).2.authLogs
      = db.authLogs ++
        [{ userId := some uid, eventType := .passwordChange, success := true,
           ipAddress := ip, userAgent := ua }] := by
  unfold changePassword
  rw [show single (db.users.filter (fun v => v.id == uid)) = some u by
    rw [hu]; rfl]
  simp [hok, updateUsers, revokeWhere, logAuthEvent]
theorem changePassword_wrong_shape (db : DB) (uid : Nat) (cur new : String)
    (ip ua : Option String) (u : User)
    (hu : db.users.filter (fun v => v.id == uid) = [u])
    (hbad : comparePassword cur u.passwordHash = false) :
    changePassword db uid cur new ip ua
      = (.clientError "Current password is incorrect",
         logAuthEvent db
           { userId := some uid, eventType := .passwordChange,
             success := false, ipAddress := ip, userAgent := ua,
             errorMessage := some "Invalid current password" }) := by
  unfold changePassword
  rw [show single (db.users.filter (fun v => v.id == uid)) = some u by
    rw [hu]; rfl]
  simp [hbad]
theorem deleteAccount_wrong_shape (db : DB) (uid : Nat) (pw : String)
    (ip ua : Option String) (u : User)
    (hpw : (pw == "") = false)
    (hu : db.users.filter (fun v => v.id == uid) = [u])
    (hbad : comparePassword pw u.passwordHash = false) :
    deleteAccount db uid (some pw) ip ua
      = (.clientError "Password is incorrect", db) := by
  unfold deleteAccount
  rw [show single (db.users.filter (fun v => v.id == uid)) = some u by
    rw [hu]; rfl]
  simp [hpw, hbad]
theorem deleteAccount_ok_shape (db : DB) (uid : Nat) (pw : String)
    (ip ua : Option String) (u : User)
    (hpw : (pw == "") = false)
    (hu : db.users.filter (fun v => v.id == uid) = [u])
    (hok : comparePassword pw u.passwordHash = true) :
    (deleteAccount db uid (some pw) ip ua).1 = .ok "Account deleted successfully"
    ∧ (deleteAccount db uid (some pw) ip ua).2.authLogs
      = (db.authLogs ++
          [({ userId := some uid, eventType := .accountDeletion,
              success := true, ipAddress := ip, userAgent := ua,
              metaUsername := some u.username,
              metaEmail := some u.email } : AuthEvent)]).map
        (fun (e : AuthEvent) =>
          if e.userId == some uid then { e with userId := none } else e) := by
  unfold deleteAccount
  rw [show single (db.users.filter (fun v => v.id == uid)) = some u by
    rw [hu]; rfl]
  simp [hpw, hok, logAuthEvent, deleteUserRow]
theorem registerUser_ok_shape (cfg : Config) (db : DB) (now : Nat)
    (rd : RegisterData)
    (habs : ∀ v ∈ db.users, v.username ≠ rd.username ∧ v.email ≠ rd.email) :
    (registerUser cfg db now rd).1 = .ok
      { user := mkNewUser db rd,
        tokens := { accessToken := generateAccessToken cfg (mkNewUser db rd) now,
                    refreshToken :=
                      generateRefreshToken cfg (mkNewUser db rd) now
                        db.nextTokenId } }
    ∧ (registerUser cfg db now rd).2.users = db.users ++ [mkNewUser db rd] := by
  have hfilter : db.users.filter
      (fun v => v.username == rd.username || v.email == rd.email) = [] :=
    List.filter_eq_nil_iff.mpr (fun v hv => by
      have h := habs v hv
      simp [h.1, h.2])
  have hany : db.users.any
      (fun v => v.username == rd.username || v.email == rd.email) = false := by
    rw [List.any_eq_false]
    intro v hv
    have h := habs v hv
    simp [h.1, h.2]
  unfold registerUser
  rw [hfilter]
  simp only [single, hany, Bool.false_eq_true, if_false, ite_false]
  exact ⟨rfl, rfl⟩
theorem map_ite_eq_self {α : Type} (l : List α) (p : α → Bool) (f : α → α)
    (h : ∀ a ∈ l, p a = false) :
    l.map (fun a => if p a then f a else a) = l := by
  induction l with
  | nil => rfl
  | cons a t ih =>
      simp only [List.map]
      rw [h a (by simp), ih (fun x hx => h x (by simp [hx]))]
      simp

end Lemmas

/-- C1: a refresh token from login/register can be used for at most one
successful refresh; after rotation or after a logout that revoked its
ledger row, presenting it again fails with an invalid-token error. -/
theorem c1_single_use (cfg : Config) (db : DB) (now now2 : Nat)
    (tok : TokenStr) (tid : Nat)
    (hfresh : tokenIdsFresh db = true)
    (hcons : storedConsistent db = true)
    (htid : tok.tokenId = some tid) :
    (isOkResult (refreshAccessToken cfg db now tok).1 = true →
      ∃ e, (refreshAccessToken cfg (refreshAccessToken cfg db now tok).2
          now2 tok).1 = .error e ∧ isInvalidTokenError e = true)
    ∧ (∃ e, (refreshAccessToken cfg (logoutUser db tok.userId (some tok)).2
        now2 tok).1 = .error e ∧ isInvalidTokenError e = true) := by
  constructor
  · intro hok
    obtain ⟨hv, r, hfilter, u, hledger⟩ :=
      refreshAccessToken_ok_shape cfg db now tok hok
    have hrmem := mem_of_filter_eq_singleton hfilter
    have hrtid : r.tokenId = some tid := by
      have := hrmem.2
      simp only [Bool.and_eq_true, beq_iff_eq] at this
      rw [this.1.1, htid]
    have hfresh' : tid < db.nextTokenId := by
      rw [tokenIdsFresh, List.all_eq_true] at hfresh
      have := hfresh r hrmem.1
      rw [hrtid] at this
      exact of_decide_eq_true this
    apply refreshAccessToken_no_live_record
    intro m hm
    rw [hledger] at hm
    rcases List.mem_append.mp hm with hm | hm
    · obtain ⟨x, hx, hgx⟩ := List.mem_map.mp hm
      by_cases hxid : (x.id == r.id) = true
      · rw [if_pos hxid] at hgx
        rw [← hgx]
        simp
      · rw [if_neg hxid] at hgx
        subst hgx
        by_contra hpred
        rw [Bool.not_eq_false] at hpred
        have := eq_of_filter_eq_singleton hfilter hx hpred
        subst this
        simp at hxid
    · have hm' : m = ({ id := db.nextRecordId,
                        userId := u.id,
                        tokenId := some db.nextTokenId,
                        tokenHash := sha256 (generateRefreshToken cfg u now db.nextTokenId),
                        expiresAt := now + cfg.refreshLifetime,
                        isRevoked := false } : RefreshRecord) := by
        simpa using hm
      subst hm'
      have hne : (some db.nextTokenId == some tid) = false := by
        simp
        omega
      simp [htid, hne]
  · apply refreshAccessToken_no_live_record
    intro m hm
    have hshape : (logoutUser db tok.userId (some tok)).2.refreshTokens
        = db.refreshTokens.map (fun x =>
            if x.tokenId == some tid && x.userId == tok.userId
            then { x with isRevoked := true } else x) := by
      simp only [logoutUser, htid, revokeWhere, logAuthEvent]
    rw [hshape] at hm
    obtain ⟨x, hx, hgx⟩ := List.mem_map.mp hm
    by_cases hcond : (x.tokenId == some tid && x.userId == tok.userId) = true
    · rw [if_pos hcond] at hgx
      rw [← hgx]
      simp
    · rw [if_neg hcond] at hgx
      subst hgx
      by_contra hpred
      rw [Bool.not_eq_false] at hpred
      rw [storedConsistent, List.all_eq_true] at hcons
      have hc := hcons x hx
      simp only [Bool.and_eq_true, beq_iff_eq] at hc hpred
      have hhash : x.tokenHash = sha256 tok := by tauto
      have hval : x.tokenHash.val = tok := by rw [hhash]; rfl
      have k1 : x.tokenId = some tid := by rw [hc.1, hval, htid]
      have k2 : x.userId = tok.userId := by rw [hc.2, hval]
      apply hcond
      simp [k1, k2]
/-- Witness for C1 at the concrete alice database and its issued token. -/
theorem c1_witness :
    tokenIdsFresh aliceDB = true
    ∧ storedConsistent aliceDB = true
    ∧ isOkResult (refreshAccessToken defaultCfg aliceDB 200 aliceTok).1 = true
    ∧ (∃ e, (refreshAccessToken defaultCfg
        (refreshAccessToken defaultCfg aliceDB 200 aliceTok).2 300 aliceTok).1
          = .error e ∧ isInvalidTokenError e = true)
    ∧ (∃ e, (refreshAccessToken defaultCfg
        (logoutUser aliceDB aliceTok.userId (some aliceTok)).2 300 aliceTok).1
          = .error e ∧ isInvalidTokenError e = true) := by
  have h := c1_single_use defaultCfg aliceDB 200 300 aliceTok 1
    (by decide) (by decide) (by decide)
  exact ⟨by decide, by decide, by decide, h.1 (by decide), h.2⟩
/-- C2 counterexample: after registering alice and making four wrong
logins, the fifth wrong login returns InvalidCredentials, not the
AccountLocked error the claim predicts for the Nth call. -/
theorem c2_counterexample :
    (loginUser defaultCfg (wrongLogins defaultCfg aliceDB 200 "alice" "wrong" 4)
        200 "alice" "wrong" none none).1 = .error .invalidCredentials
    ∧ AuthErr.invalidCredentials ≠ AuthErr.accountLocked := by
  exact ⟨rfl, by decide⟩
/-- C2 (amended): the Nth wrong login itself returns InvalidCredentials and
locks; the next correct login within the window is AccountLocked. -/
theorem c2_amended (cfg : Config) (db : DB) (now nowLater : Nat)
    (identifier pw goodPw : String) (u : User)
    (hu : usersMatching db identifier = [u])
    (hact : u.isActive = true)
    (hlock : u.lockedUntil = none)
    (h0 : u.failedLoginAttempts = 0)
    (hwrong : comparePassword pw u.passwordHash = false)
    (hgood : comparePassword goodPw u.passwordHash = true)
    (hN : 1 ≤ cfg.maxLoginAttempts)
    (hwin : nowLater < now + cfg.lockoutDuration) :
    (loginUser cfg (wrongLogins cfg db now identifier pw (cfg.maxLoginAttempts - 1))
        now identifier pw none none).1 = .error .invalidCredentials
    ∧ usersMatching (loginUser cfg
        (wrongLogins cfg db now identifier pw (cfg.maxLoginAttempts - 1))
        now identifier pw none none).2 identifier
      = [{ u with
           failedLoginAttempts := cfg.maxLoginAttempts,
           lockedUntil := some (now + cfg.lockoutDuration) }]
    ∧ (loginUser cfg (loginUser cfg
        (wrongLogins cfg db now identifier pw (cfg.maxLoginAttempts - 1))
        now identifier pw none none).2 nowLater identifier goodPw none none).1
      = .error .accountLocked := by
  have hprev := wrongLogins_filter cfg now identifier pw (cfg.maxLoginAttempts - 1)
    db u hu hact hlock hwrong (by omega)
  set uPrev : User := { u with failedLoginAttempts := u.failedLoginAttempts + (cfg.maxLoginAttempts - 1) } with huPrev
  have hstep := loginUser_wrong cfg _ now identifier pw none none hprev
    (by simp [isLockedAt, huPrev, hlock]) hact hwrong
  have hcond : uPrev.failedLoginAttempts + 1 ≥ cfg.maxLoginAttempts := by
    simp [huPrev]; omega
  rw [if_pos hcond] at hstep
  have hfinalU : ({ uPrev with
        failedLoginAttempts := uPrev.failedLoginAttempts + 1,
        lockedUntil := some (now + cfg.lockoutDuration) } : User)
      = { u with
          failedLoginAttempts := cfg.maxLoginAttempts,
          lockedUntil := some (now + cfg.lockoutDuration) } := by
    simp [huPrev]; omega
  rw [hfinalU] at hstep
  refine ⟨hstep.1, hstep.2.1, ?_⟩
  have := loginUser_locked cfg _ nowLater identifier goodPw none none hstep.2.1
    (by simp [isLockedAt]; omega)
  rw [this]
/-- Witness for C2's amended theorem at the concrete alice database. -/
theorem c2_witness :
    usersMatching aliceDB "alice" = [aliceUser]
    ∧ (loginUser defaultCfg (wrongLogins defaultCfg aliceDB 200 "alice" "wrong" 4)
        200 "alice" "wrong" none none).1 = .error .invalidCredentials
    ∧ (loginUser defaultCfg (loginUser defaultCfg
        (wrongLogins defaultCfg aliceDB 200 "alice" "wrong" 4)
        200 "alice" "wrong" none none).2 210 "alice" "Str0ng!Pw" none none).1
      = .error .accountLocked := by
  have h := c2_amended defaultCfg aliceDB 200 210 "alice" "wrong" "Str0ng!Pw"
    aliceUser (by decide) (by decide) (by decide) (by decide) (by decide)
    (by decide) (by decide) (by decide)
  exact ⟨by decide, h.1, h.2.2⟩
/-- C3: lockout state machine. -/
theorem c3_lockout (cfg : Config) (db : DB) (now : Nat)
    (identifier pw goodPw : String) (ip ua : Option String) (u : User) (t : Nat)
    (hu : usersMatching db identifier = [u])
    (hl : u.lockedUntil = some t) :
    (now < t →
      (loginUser cfg db now identifier pw ip ua).1 = .error .accountLocked
      ∧ (loginUser cfg db now identifier pw ip ua).2.users = db.users)
    ∧ (t ≤ now → u.isActive = true →
       comparePassword goodPw u.passwordHash = true →
      (loginUser cfg db now identifier goodPw ip ua).1 =
        .ok { user := u,
              tokens := { accessToken := generateAccessToken cfg u now,
                          refreshToken := generateRefreshToken cfg u now db.nextTokenId } }
      ∧ usersMatching (loginUser cfg db now identifier goodPw ip ua).2 identifier
        = [{ u with failedLoginAttempts := 0, lockedUntil := none,
                    lastLogin := some now }]) := by
  constructor
  · intro hlt
    rw [loginUser_locked cfg db now identifier pw ip ua hu
      (by simp [isLockedAt, hl]; omega)]
    exact ⟨rfl, rfl⟩
  · intro hge hact hok
    exact loginUser_success cfg db now identifier goodPw ip ua hu
      (by simp [isLockedAt, hl]; omega) hact hok
/-- Witness for C3 at a concretely locked account (locked until 500). -/
theorem c3_witness :
    usersMatching lockedDB "alice" = [lockedUser]
    ∧ (loginUser defaultCfg lockedDB 400 "alice" "Str0ng!Pw" none none).1
        = .error .accountLocked
    ∧ usersMatching (loginUser defaultCfg lockedDB 600 "alice" "Str0ng!Pw"
        none none).2 "alice"
      = [{ lockedUser with failedLoginAttempts := 0, lockedUntil := none,
                           lastLogin := some 600 }] := by
  have h := c3_lockout defaultCfg lockedDB 400 "alice" "Str0ng!Pw" "Str0ng!Pw"
    none none lockedUser 500 (by decide) (by decide)
  have h2 := c3_lockout defaultCfg lockedDB 600 "alice" "Str0ng!Pw" "Str0ng!Pw"
    none none lockedUser 500 (by decide) (by decide)
  exact ⟨by decide, (h.1 (by decide)).1, (h2.2 (by decide) (by decide) (by decide)).2⟩
/-- C4: unknown identifier and wrong password yield the identical
client-facing error; only the audit rows differ. -/
theorem c4_generic_error (cfg : Config) (db : DB) (now1 now2 : Nat)
    (id1 id2 pw1 pw2 : String) (ip ua : Option String) (u : User)
    (hunknown : usersMatching db id1 = [])
    (hknown : usersMatching db id2 = [u])
    (hnl : isLockedAt u now2 = false)
    (hact : u.isActive = true)
    (hwrong : comparePassword pw2 u.passwordHash = false) :
    (loginUser cfg db now1 id1 pw1 ip ua).1 = .error .invalidCredentials
    ∧ (loginUser cfg db now2 id2 pw2 ip ua).1 = .error .invalidCredentials
    ∧ (loginUser cfg db now1 id1 pw1 ip ua).2.authLogs
      = db.authLogs ++
        [{ userId := none, eventType := .failedLogin, success := false,
           ipAddress := ip, userAgent := ua,
           errorMessage := some "User not found",
           metaIdentifier := some id1 }]
    ∧ (loginUser cfg db now2 id2 pw2 ip ua).2.authLogs
      = db.authLogs ++
        [{ userId := some u.id, eventType := .failedLogin, success := false,
           ipAddress := ip, userAgent := ua,
           errorMessage := some "Invalid password",
           metaIdentifier := some id2,
           metaFailedAttempts := some (u.failedLoginAttempts + 1) }] := by
  have h1 := loginUser_unknown cfg db now1 id1 pw1 ip ua hunknown
  have h2 := loginUser_wrong cfg db now2 id2 pw2 ip ua hknown hnl hact hwrong
  rw [h1]
  exact ⟨rfl, h2.1, rfl, h2.2.2⟩
/-- Witness for C4: "bob" is unknown in the alice database. -/
theorem c4_witness :
    usersMatching aliceDB "bob" = []
    ∧ (loginUser defaultCfg aliceDB 200 "bob" "pw" none none).1
        = .error .invalidCredentials
    ∧ (loginUser defaultCfg aliceDB 200 "alice" "wrong" none none).1
        = .error .invalidCredentials := by
  have h := c4_generic_error defaultCfg aliceDB 200 200 "bob" "alice" "pw" "wrong"
    none none aliceUser (by decide) (by decide) (by decide) (by decide) (by decide)
  exact ⟨by decide, h.1, h.2.1⟩
/-- C5: a live ledger row past its expires_at yields the dedicated expired
error, a kind distinct from the invalid-token kinds. -/
theorem c5_ledger_expiry (cfg : Config) (db : DB) (now : Nat)
    (tok : TokenStr) (r : RefreshRecord)
    (hver : verifyRefreshToken tok now = some tok)
    (hrec : db.refreshTokens.filter (fun x =>
      x.tokenId == tok.tokenId && x.tokenHash == sha256 tok && !x.isRevoked) = [r])
    (hexp : r.expiresAt < now) :
    refreshAccessToken cfg db now tok = (.error .refreshTokenExpired, db)
    ∧ AuthErr.refreshTokenExpired ≠ AuthErr.invalidRefreshToken
    ∧ AuthErr.refreshTokenExpired ≠ AuthErr.invalidOrExpiredRefreshToken
    ∧ isInvalidTokenError .refreshTokenExpired = false := by
  refine ⟨?_, by simp, by simp, rfl⟩
  unfold refreshAccessToken
  rw [hver]
  simp only [hrec, single, hexp, if_true]
/-- Witness for C5: a ledger row that expired at 50, presented at 100. -/
theorem c5_witness :
    verifyRefreshToken aliceTok 100 = some aliceTok
    ∧ staleRec.expiresAt < 100
    ∧ refreshAccessToken defaultCfg staleDB 100 aliceTok
        = (.error .refreshTokenExpired, staleDB) := by
  have h := c5_ledger_expiry defaultCfg staleDB 100 aliceTok staleRec
    (by decide) (by decide) (by decide)
  exact ⟨by decide, by decide, h.1⟩
/-- C6 (amended): changePassword audits both decision paths; deleteAccount
audits only its success path — a wrong password there returns a client
error without any audit event. -/
theorem c6_amended (db : DB) (uid : Nat) (cur new pw : String)
    (ip ua : Option String) (u : User)
    (hu : db.users.filter (fun v => v.id == uid) = [u])
    (hpw : (pw == "") = false) :
    (comparePassword cur u.passwordHash = false →
      (changePassword db uid cur new ip ua).1
          = .clientError "Current password is incorrect"
      ∧ (changePassword db uid cur new ip ua).2.authLogs
          = db.authLogs ++
            [{ userId := some uid, eventType := .passwordChange,
               success := false, ipAddress := ip, userAgent := ua,
               errorMessage := some "Invalid current password" }]
      ∧ ∀ m, CtrlResult.clientError "Current password is incorrect"
          ≠ CtrlResult.serverError m)
    ∧ (comparePassword cur u.passwordHash = true →
        (changePassword db uid cur new ip ua).2.authLogs
          = db.authLogs ++
            [{ userId := some uid, eventType := .passwordChange,
               success := true, ipAddress := ip, userAgent := ua }])
    ∧ (comparePassword pw u.passwordHash = false →
        deleteAccount db uid (some pw) ip ua
          = (.clientError "Password is incorrect", db)
        ∧ ∀ m, CtrlResult.clientError "Password is incorrect"
            ≠ CtrlResult.serverError m)
    ∧ (comparePassword pw u.passwordHash = true →
        (deleteAccount db uid (some pw) ip ua).2.authLogs
          = (db.authLogs ++
              [({ userId := some uid, eventType := .accountDeletion,
                  success := true, ipAddress := ip, userAgent := ua,
                  metaUsername := some u.username,
                  metaEmail := some u.email } : AuthEvent)]).map
            (fun (e : AuthEvent) =>
              if e.userId == some uid then { e with userId := none }
              else e)) := by
  refine ⟨?_, ?_, ?_, ?_⟩
  · intro hbad
    rw [changePassword_wrong_shape db uid cur new ip ua u hu hbad]
    exact ⟨rfl, rfl, by intro m h; cases h⟩
  · intro hok
    exact (changePassword_ok_shape db uid cur new ip ua u hu hok).2.2
  · intro hbad
    exact ⟨deleteAccount_wrong_shape db uid pw ip ua u hpw hu hbad,
      by intro m h; cases h⟩
  · intro hok
    exact (deleteAccount_ok_shape db uid pw ip ua u hpw hu hok).2
/-- C6 counterexample: a wrong-password deleteAccount returns a client
error but appends no audit event at all. -/
theorem c6_counterexample :
    (deleteAccount aliceDB 1 (some "wrongpw") none none).1
      = .clientError "Password is incorrect"
    ∧ (deleteAccount aliceDB 1 (some "wrongpw") none none).2.authLogs
      = aliceDB.authLogs := by
  exact ⟨rfl, rfl⟩
/-- Witness for C6's amended theorem at the concrete alice database. -/
theorem c6_witness :
    aliceDB.users.filter (fun v => v.id == 1) = [aliceUser]
    ∧ (changePassword aliceDB 1 "nope" "N3w!Pass9" none none).2.authLogs
      = aliceDB.authLogs ++
        [{ userId := some 1, eventType := .passwordChange, success := false,
           ipAddress := none, userAgent := none,
           errorMessage := some "Invalid current password" }]
    ∧ deleteAccount aliceDB 1 (some "nope") none none
      = (.clientError "Password is incorrect", aliceDB) := by
  have h := c6_amended aliceDB 1 "nope" "N3w!Pass9" "nope" none none aliceUser
    (by decide) (by decide)
  exact ⟨by decide, (h.1 (by decide)).2.1, (h.2.2.1 (by decide)).1⟩
/-- C7 (amended): a single matching row gives ConflictError with the
offending field; on a fresh username+email, registration succeeds with a
token pair and re-registering the same data then fails with ConflictError. -/
theorem c7_amended (cfg : Config) (db : DB) (now now2 : Nat)
    (rd : RegisterData) :
    (∀ eu, db.users.filter
        (fun v => v.username == rd.username || v.email == rd.email) = [eu] →
      (registerUser cfg db now rd).1
        = .error (.userExists
            (if eu.username == rd.username then "username" else "email")))
    ∧ ((∀ v ∈ db.users, v.username ≠ rd.username ∧ v.email ≠ rd.email) →
        (registerUser cfg db now rd).1 = .ok
          { user := mkNewUser db rd,
            tokens :=
              { accessToken := generateAccessToken cfg (mkNewUser db rd) now,
                refreshToken := generateRefreshToken cfg (mkNewUser db rd) now
                  db.nextTokenId } }
        ∧ (registerUser cfg (registerUser cfg db now rd).2 now2 rd).1
            = .error (.userExists "username")) := by
  constructor
  · intro eu heu
    unfold registerUser
    rw [heu]
    rfl
  · intro habs
    have hshape := registerUser_ok_shape cfg db now rd habs
    refine ⟨hshape.1, ?_⟩
    have hfilter : db.users.filter
        (fun v => v.username == rd.username || v.email == rd.email) = [] :=
      List.filter_eq_nil_iff.mpr (fun v hv => by
        have h := habs v hv
        simp [h.1, h.2])
    have hfilter2 : (registerUser cfg db now rd).2.users.filter
        (fun v => v.username == rd.username || v.email == rd.email)
          = [mkNewUser db rd] := by
      rw [hshape.2, List.filter_append, hfilter]
      simp [mkNewUser]
    set db2 := (registerUser cfg db now rd).2 with hdb2
    unfold registerUser
    rw [hfilter2]
    simp [single, mkNewUser]
/-- C7 counterexample: alice holds the username and bob the email; the
two-row conflict query yields no single row, so registration falls through
to the insert and fails with the generic storage error, not ConflictError. -/
theorem c7_counterexample :
    (registerUser defaultCfg twoUserDB 100
        { username := "alice", email := "b@x.com", password := "Xx1!pass" }).1
      = .error .createUserFailed
    ∧ ∀ f, AuthErr.createUserFailed ≠ AuthErr.userExists f := by
  refine ⟨rfl, ?_⟩
  intro f h
  cases h
/-- Witness for C7's amended theorem: registering alice on the empty
database, then once more. -/
theorem c7_witness :
    (∀ v ∈ emptyDB.users,
      v.username ≠ aliceReg.username ∧ v.email ≠ aliceReg.email)
    ∧ (registerUser defaultCfg emptyDB 100 aliceReg).1 = .ok
        { user := mkNewUser emptyDB aliceReg,
          tokens :=
            { accessToken :=
                generateAccessToken defaultCfg (mkNewUser emptyDB aliceReg) 100,
              refreshToken :=
                generateRefreshToken defaultCfg (mkNewUser emptyDB aliceReg)
                  100 emptyDB.nextTokenId } }
    ∧ (registerUser defaultCfg (registerUser defaultCfg emptyDB 100 aliceReg).2
        150 aliceReg).1 = .error (.userExists "username") := by
  have h := (c7_amended defaultCfg emptyDB 100 150 aliceReg).2
    (by intro v hv; cases hv)
  exact ⟨(by intro v hv; cases hv), h.1, h.2⟩
/-- C8: after a successful password change every pre-change refresh token
of that user is dead: refresh with it fails with an invalid-token error. -/
theorem c8_change_password_revokes (cfg : Config) (db : DB) (now : Nat)
    (uid : Nat) (cur new : String) (ip ua : Option String) (u : User)
    (tok : TokenStr)
    (hcons : storedConsistent db = true)
    (hu : db.users.filter (fun v => v.id == uid) = [u])
    (hok : comparePassword cur u.passwordHash = true)
    (howner : tok.userId = uid) :
    ∃ e, (refreshAccessToken cfg (changePassword db uid cur new ip ua).2
        now tok).1 = .error e ∧ isInvalidTokenError e = true := by
  apply refreshAccessToken_no_live_record
  intro m hm
  rw [(changePassword_ok_shape db uid cur new ip ua u hu hok).2.1] at hm
  obtain ⟨x, hx, hgx⟩ := List.mem_map.mp hm
  by_cases hcond : (x.userId == uid) = true
  · rw [if_pos hcond] at hgx
    rw [← hgx]
    simp
  · rw [if_neg hcond] at hgx
    subst hgx
    by_contra hpred
    rw [Bool.not_eq_false] at hpred
    rw [storedConsistent, List.all_eq_true] at hcons
    have hc := hcons x hx
    simp only [Bool.and_eq_true, beq_iff_eq] at hc hpred
    have hhash : x.tokenHash = sha256 tok := by tauto
    have hval : x.tokenHash.val = tok := by rw [hhash]; rfl
    apply hcond
    simp [hc.2, hval, howner]
/-- Witness for C8: alice changes her password; her registration-time
refresh token then fails to refresh. -/
theorem c8_witness :
    storedConsistent aliceDB = true
    ∧ comparePassword "Str0ng!Pw" aliceUser.passwordHash = true
    ∧ (∃ e, (refreshAccessToken defaultCfg
        (changePassword aliceDB 1 "Str0ng!Pw" "N3w!Pass9" none none).2
        200 aliceTok).1 = .error e ∧ isInvalidTokenError e = true) := by
  have h := c8_change_password_revokes defaultCfg aliceDB 200 1 "Str0ng!Pw"
    "N3w!Pass9" none none aliceUser aliceTok (by decide) (by decide)
    (by decide) (by decide)
  exact ⟨by decide, by decide, h⟩
/-- C9: logout never fails, always appends a success logout event, leaves
users untouched, leaves the ledger untouched when nothing matches, revokes
every matching row, and is idempotent on the ledger. -/
theorem c9_logout_total (db : DB) (uid : Nat) (tokOpt : Option TokenStr) :
    (logoutUser db uid tokOpt).1 = .ok ()
    ∧ (logoutUser db uid tokOpt).2.users = db.users
    ∧ (logoutUser db uid tokOpt).2.authLogs
      = db.authLogs ++
        [{ userId := some uid, eventType := .logout, success := true }]
    ∧ ((∀ t tid, tokOpt = some t → t.tokenId = some tid →
          ∀ r ∈ db.refreshTokens,
            (r.tokenId == some tid && r.userId == uid) = false) →
        (logoutUser db uid tokOpt).2.refreshTokens = db.refreshTokens)
    ∧ (∀ t tid, tokOpt = some t → t.tokenId = some tid →
        ∀ r ∈ db.refreshTokens,
          (r.tokenId == some tid && r.userId == uid) = true →
            { r with isRevoked := true } ∈ (logoutUser db uid tokOpt).2.refreshTokens)
    ∧ (logoutUser (logoutUser db uid tokOpt).2 uid tokOpt).2.refreshTokens
      = (logoutUser db uid tokOpt).2.refreshTokens := by
  rcases tokOpt with _ | t
  · refine ⟨rfl, rfl, rfl, fun _ => rfl, ?_, rfl⟩
    intro t tid ht
    cases ht
  · rcases htid : t.tokenId with _ | tid
    · have hshape2 : ∀ d : DB, logoutUser d uid (some t)
          = (.ok (), logAuthEvent d
              { userId := some uid, eventType := .logout, success := true }) := by
        intro d
        simp [logoutUser, htid]
      have hshape := hshape2 db
      refine ⟨by rw [hshape], by rw [hshape]; rfl, by rw [hshape]; rfl, ?_, ?_, ?_⟩
      · intro _
        rw [hshape]
        rfl
      · intro t' tid' ht' htid'
        have ht'' : t' = t := by injection ht' with h; exact h.symm
        rw [ht'', htid] at htid'
        cases htid'
      · rw [hshape2, hshape2]
        rfl
    · have hshape2 : ∀ d : DB, logoutUser d uid (some t)
          = (.ok (), logAuthEvent
              (revokeWhere d (fun r => r.tokenId == some tid && r.userId == uid))
              { userId := some uid, eventType := .logout, success := true }) := by
        intro d
        simp [logoutUser, htid]
      refine ⟨by rw [hshape2], by rw [hshape2]; rfl, by rw [hshape2]; rfl,
        ?_, ?_, ?_⟩
      · intro hnone
        rw [hshape2]
        exact map_ite_eq_self _ _ _ (fun r hr => hnone t tid rfl htid r hr)
      · intro t' tid' ht' htid' r hr hcond
        have ht'' : t' = t := by injection ht' with h; exact h.symm
        rw [ht'', htid] at htid'
        have htid'' : tid' = tid := by injection htid' with h; exact h.symm
        rw [hshape2]
        refine List.mem_map.mpr ⟨r, hr, ?_⟩
        rw [htid''] at hcond
        rw [if_pos hcond]
      · rw [hshape2, hshape2]
        show (revokeWhere (logAuthEvent (revokeWhere db _) _) _).refreshTokens = _
        rw [show ∀ (d : DB) (e : AuthEvent) (p : RefreshRecord → Bool),
            (revokeWhere (logAuthEvent d e) p).refreshTokens
              = (revokeWhere d p).refreshTokens from fun _ _ _ => rfl]
        show ((revokeWhere db _).refreshTokens.map _) = _
        rw [show ∀ (d : DB) (p : RefreshRecord → Bool),
            (revokeWhere d p).refreshTokens = d.refreshTokens.map
              (fun r => if p r then { r with isRevoked := true } else r)
            from fun _ _ => rfl]
        rw [List.map_map]
        apply List.map_congr_left
        intro r _
        by_cases hc : (r.tokenId == some tid && r.userId == uid) = true
        · simp [Function.comp, hc]
        · simp only [Bool.not_eq_true] at hc
          simp [Function.comp, hc]
/-- Witness for C9 at a logout presenting no (undecodable) token. -/
theorem c9_witness :
    (logoutUser aliceDB 1 none).1 = .ok ()
    ∧ (logoutUser aliceDB 1 none).2.refreshTokens = aliceDB.refreshTokens
    ∧ (logoutUser aliceDB 1 none).2.authLogs
      = aliceDB.authLogs ++
        [{ userId := some 1, eventType := .logout, success := true }] := by
  have h := c9_logout_total aliceDB 1 none
  exact ⟨h.1, h.2.2.2.1 (by intro t tid ht; cases ht), h.2.2.1⟩
/-- C10: lock expiry does not reset the counter; one more wrong password
re-locks for a fresh window. -/
theorem c10_relock (cfg : Config) (db : DB) (now : Nat)
    (identifier pw : String) (ip ua : Option String) (u : User) (t : Nat)
    (hu : usersMatching db identifier = [u])
    (hl : u.lockedUntil = some t)
    (hexp : t ≤ now)
    (hact : u.isActive = true)
    (hcnt : cfg.maxLoginAttempts ≤ u.failedLoginAttempts)
    (hwrong : comparePassword pw u.passwordHash = false) :
    (loginUser cfg db now identifier pw ip ua).1 = .error .invalidCredentials
    ∧ usersMatching (loginUser cfg db now identifier pw ip ua).2 identifier
      = [{ u with
           failedLoginAttempts := u.failedLoginAttempts + 1,
           lockedUntil := some (now + cfg.lockoutDuration) }] := by
  have h := loginUser_wrong cfg db now identifier pw ip ua hu
    (by simp [isLockedAt, hl]; omega) hact hwrong
  rw [if_pos (by omega)] at h
  exact ⟨h.1, h.2.1⟩
/-- Witness for C10: alice locked until 500 with 5 failures, wrong password
at time 600. -/
theorem c10_witness :
    usersMatching lockedDB "alice" = [lockedUser]
    ∧ (loginUser defaultCfg lockedDB 600 "alice" "wrong" none none).1
        = .error .invalidCredentials
    ∧ usersMatching (loginUser defaultCfg lockedDB 600 "alice" "wrong"
        none none).2 "alice"
      = [{ lockedUser with
           failedLoginAttempts := 6, lockedUntil := some 615 }] := by
  have h := c10_relock defaultCfg lockedDB 600 "alice" "wrong" none none
    lockedUser 500 (by decide) (by decide) (by decide) (by decide) (by decide)
    (by decide)
  exact ⟨by decide, h.1, h.2⟩

end CrudAuth
